import Mathlib

/-!
Shallow embedding of the ball-simulator program (src/main.py) and proofs of
the specification's claims about it.

Modelling conventions:
* Python float arithmetic on coordinates is modelled exactly over `ℚ`; the
  literal `0.02` from `Ball.tick` is the exact rational `1/50`.
* Euclidean magnitudes (`abs(complex(x, y))` in the source) are modelled with
  `Complex.abs` over `ℝ`, which is exactly `Real.sqrt (x*x + y*y)`.
* `random.randrange` draws are modelled as explicit parameters or oracles.
* Drawing to a `tk.Canvas` is an external side effect (the spec treats the
  display surface as an opaque collaborator); only the state the program
  keeps, and whether a call raises, is modelled.
* A Python method that can raise is modelled with `Except String`.
-/

namespace BallSim

/-- Vector2d (src/main.py lines 39-73): a 2D point/velocity with rational
    (exact-float) coordinates. -/
structure Vector2d where
  x : ℚ
  y : ℚ
deriving DecidableEq

/-- A Python value passed as the right operand of `+` / `+=` on a Vector2d:
    either an actual Vector2d or some non-vector value (described by a
    string). Mirrors the `isinstance(other, Vector2d)` test. -/
inductive PyValue where
  | vec (v : Vector2d)
  | nonVector (desc : String)
deriving DecidableEq

/-- Vector2d.__add__ (src/main.py lines 52-59): copies `self`, adds the
    operand componentwise; raises TypeError when the operand is not a
    Vector2d. Neither operand is mutated in either case. -/
def Vector2d.add (self : Vector2d) (other : PyValue) : Except String Vector2d :=
  match other with
  | .vec o => .ok ⟨self.x + o.x, self.y + o.y⟩
  | .nonVector _ => .error "Only vector can be added to vector"

/-- Vector2d.__iadd__ (src/main.py lines 44-50): in-place accumulation.
    Returns the state of `self` after the call together with the raised
    error, if any. The TypeError is raised before any field assignment, so
    on the error path `self` is returned unchanged. -/
def Vector2d.iadd (self : Vector2d) (other : PyValue) : Vector2d × Option String :=
  match other with
  | .vec o => (⟨self.x + o.x, self.y + o.y⟩, none)
  | .nonVector _ => (self, some "Only vector can be added to vector")

/-- Ball (src/main.py lines 98-151): a circle entity. `color` is the string
    produced by `random_color()`; `destroyed` is the `_destroyed` flag (set
    to `False` at construction and never written again in the repository).
    The random velocity drawn in `__init__` is a constructor argument here. -/
structure Ball where
  position : Vector2d
  radius : ℚ
  color : String
  destroyed : Bool
  velocity : Vector2d
deriving DecidableEq

/-- Position after the displacement step `self.position += self.velocity * 0.02`
    at the top of Ball.tick (src/main.py line 133). -/
def Ball.dispPos (b : Ball) : Vector2d :=
  ⟨b.position.x + b.velocity.x * (0.02 : ℚ), b.position.y + b.velocity.y * (0.02 : ℚ)⟩

/-- Ball.tick (src/main.py lines 132-145): displace by `velocity * 0.02`,
    then run the four independent boundary checks in source order
    (right wall, bottom wall, left wall, top wall), each negating the
    corresponding velocity component (`*= -1`) when its condition holds on
    the already-displaced position. -/
def Ball.tick (maxw maxh : ℚ) (b : Ball) : Ball :=
  let p : Vector2d := b.dispPos
  let vx1 : ℚ := if p.x + b.radius > maxw then b.velocity.x * (-1) else b.velocity.x
  let vy1 : ℚ := if p.y + b.radius > maxh then b.velocity.y * (-1) else b.velocity.y
  let vx2 : ℚ := if p.x - b.radius < 0 then vx1 * (-1) else vx1
  let vy2 : ℚ := if p.y - b.radius < 0 then vy1 * (-1) else vy1
  { b with position := p, velocity := ⟨vx2, vy2⟩ }

/-- Iterated Ball.tick: the ball after `n` consecutive ticks of the world. -/
def Ball.tickN (maxw maxh : ℚ) : ℕ → Ball → Ball
  | 0, b => b
  | n + 1, b => Ball.tickN maxw maxh n (Ball.tick maxw maxh b)

/-- Proposition that none of the four boundary conditions of Ball.tick fires
    on this tick (evaluated, as in the source, on the displaced position). -/
def Ball.noBounce (maxw maxh : ℚ) (b : Ball) : Prop :=
  ¬ (b.dispPos.x + b.radius > maxw) ∧ ¬ (b.dispPos.y + b.radius > maxh) ∧
  ¬ (b.dispPos.x - b.radius < 0) ∧ ¬ (b.dispPos.y - b.radius < 0)

instance (maxw maxh : ℚ) (b : Ball) : Decidable (Ball.noBounce maxw maxh b) := by
  unfold Ball.noBounce
  infer_instance

/-- Ball.contains (src/main.py lines 125-126): literally
    `self.radius > abs(complex(self.position.x - point.x, self.position.y - point.y))`,
    a strict comparison of the radius against the Euclidean distance. -/
def Ball.contains (b : Ball) (p : Vector2d) : Prop :=
  (b.radius : ℝ) > Complex.abs ⟨((b.position.x - p.x : ℚ) : ℝ), ((b.position.y - p.y : ℚ) : ℝ)⟩

/-- Executable form of Ball.contains used where the source branches on it;
    `contains_iff_containsB` below proves it equivalent to `Ball.contains`. -/
def Ball.containsB (b : Ball) (p : Vector2d) : Bool :=
  decide (0 < b.radius ∧ (b.position.x - p.x) ^ 2 + (b.position.y - p.y) ^ 2 < b.radius ^ 2)

/-- Ball.clicked (src/main.py lines 147-151): reassigns position and velocity
    to fresh random values. The two `randrange` position draws and the random
    velocity are passed in explicitly (in the source: position uniform in
    [100,700)x[100,600), velocity components uniform in [-50,50)). -/
def Ball.clicked (b : Ball) (newPos newVel : Vector2d) : Ball :=
  { b with position := newPos, velocity := newVel }

/-- Ball.render_debug (src/main.py lines 113-123), control flow only: the
    marker dot, id label and velocity line are external canvas drawing, but
    the base-point computation
    `vel_base = self.position + self.velocity * self.radius * (1 / abs(self.velocity))`
    performs an unguarded float division by `abs(self.velocity)`, so the call
    raises ZeroDivisionError exactly when the velocity magnitude is zero,
    i.e. when both components are zero (`velAbs_eq_zero_iff` below), and
    returns normally otherwise. -/
def Ball.renderDebug (b : Ball) : Except String Unit :=
  if b.velocity.x = 0 ∧ b.velocity.y = 0 then
    .error "ZeroDivisionError: float division by zero"
  else
    .ok ()

/-- Python `int()` truncation toward zero, on exact rationals. -/
def truncInt (q : ℚ) : ℤ :=
  if 0 ≤ q then ⌊q⌋ else ⌈q⌉

/-- FrameStats.render_debug (src/main.py lines 91-95): computes
    `duration = tick_stamp - last_tick_stamp` and formats
    `int(1000*duration)` and `int(1.0/duration)` into the overlay text.
    The division `1.0/duration` is unguarded, so the call raises
    ZeroDivisionError when the duration is zero; otherwise it returns the
    two integers drawn into the text. Text drawing itself is external. -/
def FrameStats.renderDebug (tickStamp lastTickStamp : ℚ) : Except String (ℤ × ℤ) :=
  let duration := tickStamp - lastTickStamp
  if duration = 0 then
    .error "ZeroDivisionError: float division by zero"
  else
    .ok (truncInt (1000 * duration), truncInt (1 / duration))

/-- An entry of the World's object table: either a Ball (which is
    IRenderable, IIntersectable and IClickable) or the FrameStats entity
    (IRenderable only, no per-entity state of its own). -/
inductive Obj where
  | ball (b : Ball)
  | frameStats
deriving DecidableEq

/-- The `destroyed` property of an object: `Ball._destroyed` for balls,
    `IObject.destroyed` (constantly False) for FrameStats. -/
def Obj.destroyed : Obj → Bool
  | .ball b => b.destroyed
  | .frameStats => false

/-- Per-object tick: Ball.tick for balls; FrameStats inherits the no-op
    IObject.tick (src/main.py lines 18-19). -/
def Obj.tick (maxw maxh : ℚ) : Obj → Obj
  | .ball b => .ball (Ball.tick maxw maxh b)
  | .frameStats => .frameStats

/-- Game (src/main.py lines 166-258): the World state. The `_frames` list of
    canvases is modelled by its length (`numFrames`) plus the index
    `frameIndex`, since a canvas has no modelled state of its own and its
    identity is its position in the list. Timestamps are rational. -/
structure Game where
  numFrames : ℕ
  frameIndex : ℕ
  objects : List Obj
  debug : Bool
  pause : Bool
  maxh : ℚ
  maxw : ℚ
  lastTickStamp : ℚ
  tickStamp : ℚ
deriving DecidableEq

/-- Game.__init__ (src/main.py lines 167-187): ONE canvas in `_frames`
    (`self._frames = [tk.Canvas(self.root, bg='white')]`), frame index 0,
    bounds 800x600, not paused, and an object table holding just the
    FrameStats entity. `t0` is the construction-time `time.time()`. -/
def Game.init (debug : Bool) (t0 : ℚ) : Game :=
  { numFrames := 1
    frameIndex := 0
    objects := [Obj.frameStats]
    debug := debug
    pause := false
    maxh := 600
    maxw := 800
    lastTickStamp := t0
    tickStamp := t0 }

/-- Game.sanitize_frame_index (src/main.py lines 189-192): reduces an index
    modulo the number of frame canvases. -/
def Game.sanitizeFrameIndex (g : Game) (i : ℕ) : ℕ :=
  i % g.numFrames

/-- Game.frame_canvas (src/main.py lines 194-196): the canvas currently
    presented, identified by its index in `_frames`. -/
def Game.frameCanvasIdx (g : Game) : ℕ :=
  g.frameIndex

/-- Game.next_frame_canvas (src/main.py lines 198-200): the canvas returned
    for drawing the next frame — `self._frames[self.sanitize_frame_index(self._frame_index)]`,
    i.e. the sanitized CURRENT index, with no offset. -/
def Game.nextFrameCanvasIdx (g : Game) : ℕ :=
  g.sanitizeFrameIndex g.frameIndex

/-- Game.switch_frame (src/main.py lines 202-207): clears the current canvas
    (external drawing state), increments the frame index and sanitizes it. -/
def Game.switchFrame (g : Game) : Game :=
  { g with frameIndex := g.sanitizeFrameIndex (g.frameIndex + 1) }

/-- Iterated Game.switch_frame. -/
def Game.switchFrameN : ℕ → Game → Game
  | 0, g => g
  | n + 1, g => Game.switchFrameN n g.switchFrame

/-- Game.tick (src/main.py lines 209-234), state change only: switch frames,
    record the new timestamp (`now`, the `time.time()` call), tick every
    object unless paused, sweep objects whose `destroyed` flag is true, and
    finally copy the timestamp into `last_tick_stamp`. The render pass only
    draws to the canvas and is external (FrameStats' possible zero-duration
    raise is modelled separately by `FrameStats.renderDebug`); the `after`
    rescheduling is external. -/
def Game.tick (now : ℚ) (g : Game) : Game :=
  let g1 := g.switchFrame
  let g2 := { g1 with tickStamp := now }
  let objs1 := if g2.pause then g2.objects else g2.objects.map (Obj.tick g2.maxw g2.maxh)
  let objs2 := objs1.filter (fun o => ! o.destroyed)
  { g2 with objects := objs2, lastTickStamp := g2.tickStamp }

/-- Game.clicked inner loop (src/main.py lines 236-241): walk the object
    table in order; an object that is IIntersectable and IClickable (i.e. a
    Ball) and contains the click point gets its `clicked()` invoked, which
    consumes fresh random position/velocity; other objects are untouched.
    `rand` is the randomness oracle, keyed by the object's index `i`. -/
def Game.clickedList (point : Vector2d) (rand : ℕ → Vector2d × Vector2d) :
    ℕ → List Obj → List Obj
  | _, [] => []
  | i, Obj.ball b :: rest =>
    (if b.containsB point then Obj.ball (b.clicked (rand i).1 (rand i).2) else Obj.ball b)
      :: Game.clickedList point rand (i + 1) rest
  | i, Obj.frameStats :: rest => Obj.frameStats :: Game.clickedList point rand (i + 1) rest

/-- Game.clicked (src/main.py lines 236-241) as a state transformer. -/
def Game.clicked (point : Vector2d) (rand : ℕ → Vector2d × Vector2d) (g : Game) : Game :=
  { g with objects := Game.clickedList point rand 0 g.objects }

/-- Game.toggle_pause (src/main.py lines 243-244). -/
def Game.togglePause (g : Game) : Game :=
  { g with pause := ! g.pause }

/-- Game.toggle_debug (src/main.py lines 246-247). -/
def Game.toggleDebug (g : Game) : Game :=
  { g with debug := ! g.debug }

/-- Outcome relation used to state what one click does to one object table
    entry: a contained ball becomes its clicked version (clicked() was
    invoked on it, with some fresh random position/velocity), a
    non-contained ball and the FrameStats entry are left untouched. -/
def ClickOutcome (point : Vector2d) (o o2 : Obj) : Prop :=
  (∀ b : Ball, o = Obj.ball b →
    (Ball.contains b point → ∃ np nv : Vector2d, o2 = Obj.ball (b.clicked np nv)) ∧
    (¬ Ball.contains b point → o2 = o)) ∧
  (o = Obj.frameStats → o2 = o)

/-- A concrete ball used to exercise the paused world: mid-field, moving. -/
def demoBall : Ball := ⟨⟨400, 300⟩, 10, "#aabbcc", false, ⟨50, 25⟩⟩

/-- A concrete paused world holding one moving ball. -/
def pausedGame : Game :=
  { numFrames := 1
    frameIndex := 0
    objects := [Obj.ball demoBall]
    debug := false
    pause := true
    maxh := 600
    maxw := 800
    lastTickStamp := 0
    tickStamp := 0 }

/-- Two overlapping balls: both contain the point (150, 150). -/
def ballA : Ball := ⟨⟨150, 150⟩, 20, "#ff0000", false, ⟨5, 0⟩⟩

/-- Second overlapping ball, centre (160, 150), radius 25. -/
def ballB : Ball := ⟨⟨160, 150⟩, 25, "#00ff00", false, ⟨0, 5⟩⟩

/-- A world whose object table holds the two overlapping balls. -/
def overlapGame : Game :=
  { numFrames := 1
    frameIndex := 0
    objects := [Obj.ball ballA, Obj.ball ballB]
    debug := false
    pause := false
    maxh := 600
    maxw := 800
    lastTickStamp := 0
    tickStamp := 0 }

/-- A fixed randomness oracle for click tests. -/
def clickRand : ℕ → Vector2d × Vector2d :=
  fun _ => (⟨200, 300⟩, ⟨10, 10⟩)

/-! Helper lemmas about the embedded operations. -/

/-- A tick on which no boundary condition fires leaves the velocity vector
    untouched. -/
theorem Ball.tick_velocity_of_noBounce (maxw maxh : ℚ) (b : Ball)
    (h : Ball.noBounce maxw maxh b) : (Ball.tick maxw maxh b).velocity = b.velocity := by
  obtain ⟨h1, h2, h3, h4⟩ := h
  simp [Ball.tick, h1, h2, h3, h4]

/-- Each velocity component after a tick is the old component up to sign, so
    its square is preserved, bounce or no bounce. -/
theorem Ball.tick_velocity_sq (maxw maxh : ℚ) (b : Ball) :
    (Ball.tick maxw maxh b).velocity.x ^ 2 = b.velocity.x ^ 2 ∧
    (Ball.tick maxw maxh b).velocity.y ^ 2 = b.velocity.y ^ 2 := by
  simp only [Ball.tick]
  split_ifs <;> constructor <;> ring

/-- Velocity is exactly unchanged over any run of ticks during which no
    boundary condition fires. -/
theorem Ball.tickN_velocity_of_noBounce (maxw maxh : ℚ) :
    ∀ (n : ℕ) (b : Ball),
      (∀ k, k < n → Ball.noBounce maxw maxh (Ball.tickN maxw maxh k b)) →
      (Ball.tickN maxw maxh n b).velocity = b.velocity := by
  intro n
  induction n with
  | zero => intro b _; rfl
  | succ m ih =>
    intro b h
    have h0 : Ball.noBounce maxw maxh b := h 0 (Nat.succ_pos m)
    have hrest : ∀ k, k < m →
        Ball.noBounce maxw maxh (Ball.tickN maxw maxh k (Ball.tick maxw maxh b)) := by
      intro k hk
      exact h (k + 1) (Nat.succ_lt_succ hk)
    calc (Ball.tickN maxw maxh (m + 1) b).velocity
        = (Ball.tickN maxw maxh m (Ball.tick maxw maxh b)).velocity := rfl
      _ = (Ball.tick maxw maxh b).velocity := ih (Ball.tick maxw maxh b) hrest
      _ = b.velocity := Ball.tick_velocity_of_noBounce maxw maxh b h0

/-- Two vectors with the same sum of squared components have the same
    Euclidean magnitude (the source computes it as `abs(complex(x, y))`). -/
theorem abs_eq_of_sq_sum_eq (u w : Vector2d)
    (h : u.x ^ 2 + u.y ^ 2 = w.x ^ 2 + w.y ^ 2) :
    Complex.abs ⟨(u.x : ℝ), (u.y : ℝ)⟩ = Complex.abs ⟨(w.x : ℝ), (w.y : ℝ)⟩ := by
  rw [Complex.abs_apply, Complex.abs_apply, Complex.normSq_mk, Complex.normSq_mk]
  congr 1
  have hc : ((u.x : ℝ) ^ 2 + (u.y : ℝ) ^ 2) = ((w.x : ℝ) ^ 2 + (w.y : ℝ) ^ 2) := by
    exact_mod_cast congrArg (fun q : ℚ => (q : ℝ)) h
  nlinarith [hc]

/-- The strict comparison `radius > abs(complex(dx, dy))` of Ball.contains is
    equivalent to a rational comparison of squares. -/
theorem Ball.contains_iff_sq (b : Ball) (p : Vector2d) :
    b.contains p ↔
      0 < b.radius ∧
        (b.position.x - p.x) ^ 2 + (b.position.y - p.y) ^ 2 < b.radius ^ 2 := by
  unfold Ball.contains
  rw [Complex.abs_apply, Complex.normSq_mk, gt_iff_lt]
  constructor
  · intro h
    have hr : (0 : ℝ) < (b.radius : ℚ) :=
      lt_of_le_of_lt (Real.sqrt_nonneg _) h
    have hq : (0 : ℚ) < b.radius := by exact_mod_cast hr
    refine ⟨hq, ?_⟩
    rw [Real.sqrt_lt' hr] at h
    have h2 : ((b.position.x - p.x : ℚ) : ℝ) ^ 2 + ((b.position.y - p.y : ℚ) : ℝ) ^ 2 <
        ((b.radius : ℚ) : ℝ) ^ 2 := by nlinarith [h]
    exact_mod_cast h2
  · rintro ⟨hq, hlt⟩
    have hr : (0 : ℝ) < (b.radius : ℚ) := by exact_mod_cast hq
    rw [Real.sqrt_lt' hr]
    have h2 : ((b.position.x - p.x : ℚ) : ℝ) ^ 2 + ((b.position.y - p.y : ℚ) : ℝ) ^ 2 <
        ((b.radius : ℚ) : ℝ) ^ 2 := by exact_mod_cast hlt
    nlinarith [h2]

/-- The executable hit test agrees with the source's hit test. -/
theorem Ball.contains_iff_containsB (b : Ball) (p : Vector2d) :
    b.contains p ↔ b.containsB p = true := by
  rw [Ball.contains_iff_sq, Ball.containsB, decide_eq_true_iff]

/-- The Euclidean magnitude of a velocity vector vanishes exactly when both
    components vanish; this is the condition under which Ball.render_debug's
    division `1 / abs(self.velocity)` raises. -/
theorem velAbs_eq_zero_iff (x y : ℚ) :
    Complex.abs ⟨(x : ℝ), (y : ℝ)⟩ = 0 ↔ x = 0 ∧ y = 0 := by
  rw [map_eq_zero]
  simp [Complex.ext_iff]

/-- Per-object ticking never changes the destroyed flag (nothing in the
    repository ever sets it). -/
theorem Obj.tick_destroyed (maxw maxh : ℚ) (o : Obj) :
    (Obj.tick maxw maxh o).destroyed = o.destroyed := by
  cases o <;> rfl

/-- The object table after Game.tick: the (conditionally ticked) objects with
    the destroyed ones swept out. -/
theorem Game.tick_objects (now : ℚ) (g : Game) :
    (g.tick now).objects =
      (if g.pause then g.objects else g.objects.map (Obj.tick g.maxw g.maxh)).filter
        (fun o => ! o.destroyed) := rfl

/-- The click loop relates every table entry to its post-click entry by
    `ClickOutcome`: each contained ball has clicked() invoked on it, every
    other entry is untouched. -/
theorem clickedList_outcome (point : Vector2d) (rand : ℕ → Vector2d × Vector2d) :
    ∀ (i : ℕ) (l : List Obj),
      List.Forall₂ (ClickOutcome point) l (Game.clickedList point rand i l) := by
  intro i l
  induction l generalizing i with
  | nil => exact List.Forall₂.nil
  | cons o rest ih =>
    cases o with
    | ball b =>
      refine List.Forall₂.cons ?_ (ih (i + 1))
      refine ⟨?_, ?_⟩
      · intro b2 hb2
        have hb : b2 = b := by
          injection hb2 with h
          exact h.symm
        subst hb
        refine ⟨?_, ?_⟩
        · intro hc
          rw [if_pos ((Ball.contains_iff_containsB b2 point).mp hc)]
          exact ⟨(rand i).1, (rand i).2, rfl⟩
        · intro hc
          rw [if_neg (fun hB => hc ((Ball.contains_iff_containsB b2 point).mpr hB))]
      · intro h
        cases h
    | frameStats =>
      refine List.Forall₂.cons ?_ (ih (i + 1))
      exact ⟨fun b2 hb2 => (by cases hb2), fun _ => rfl⟩

/-! Claim theorems. -/

/-- C1, counterexample: the World does NOT own two display surfaces — the
    `_frames` list built in Game.__init__ holds exactly one canvas, the
    next-frame accessor returns the very surface currently presented, and
    switch_frame leaves the frame index where it was, so no swap ever
    happens. -/
theorem double_buffer_cex :
    (Game.init true 0).numFrames ≠ 2 ∧
    (Game.init true 0).numFrames = 1 ∧
    Game.nextFrameCanvasIdx (Game.init true 0) = Game.frameCanvasIdx (Game.init true 0) ∧
    ((Game.init true 0).switchFrame).frameIndex = (Game.init true 0).frameIndex := by
  refine ⟨by decide, rfl, rfl, rfl⟩

/-- C1 (amended): the World owns exactly ONE display surface; starting from
    Game.__init__, any number of switch_frame calls keeps the frame index at
    0 (the increment is cancelled by the modulo-1 sanitization), and for any
    in-range frame index the next-frame accessor returns the same surface as
    the presented one, since it sanitizes the current index without
    offsetting it. -/
theorem single_buffer_no_swap :
    (∀ (d : Bool) (t0 : ℚ), (Game.init d t0).numFrames = 1) ∧
    (∀ (d : Bool) (t0 : ℚ) (n : ℕ),
      (Game.switchFrameN n (Game.init d t0)).numFrames = 1 ∧
      (Game.switchFrameN n (Game.init d t0)).frameIndex = 0) ∧
    (∀ g : Game, g.frameIndex < g.numFrames →
      g.nextFrameCanvasIdx = g.frameCanvasIdx) := by
  refine ⟨fun d t0 => rfl, ?_, ?_⟩
  · intro d t0 n
    have key : ∀ (m : ℕ) (g : Game), g.numFrames = 1 → g.frameIndex = 0 →
        (Game.switchFrameN m g).numFrames = 1 ∧ (Game.switchFrameN m g).frameIndex = 0 := by
      intro m
      induction m with
      | zero => intro g h1 h2; exact ⟨h1, h2⟩
      | succ k ih =>
        intro g h1 h2
        refine ih g.switchFrame ?_ ?_
        · simpa [Game.switchFrame] using h1
        · simp [Game.switchFrame, Game.sanitizeFrameIndex, h1, Nat.mod_one]
    exact key n _ rfl rfl
  · intro g h
    unfold Game.nextFrameCanvasIdx Game.frameCanvasIdx Game.sanitizeFrameIndex
    exact Nat.mod_eq_of_lt h

/-- C1 witness: in the freshly constructed world the next-frame accessor
    already coincides with the presented surface. -/
theorem single_buffer_no_swap_witness :
    Game.nextFrameCanvasIdx (Game.init true 0) = Game.frameCanvasIdx (Game.init true 0) :=
  single_buffer_no_swap.2.2 (Game.init true 0) (by decide)

/-- C2, counterexample: for a ball whose diameter exceeds the world width
    (radius 500, world 800 wide), both x-axis boundary conditions hold after
    displacement, yet `velocity.x` ends the tick at its old value 50 — not
    with the opposite sign, contradicting the claim's "if x-r < 0 OR
    x+r > boundsWidth then the next velocity.x has the opposite sign". -/
theorem bounce_opposite_sign_cex :
    (Ball.tick 800 600 ⟨⟨400, 300⟩, 500, "#aabbcc", false, ⟨50, 0⟩⟩).position.x - 500 < 0 ∧
    (Ball.tick 800 600 ⟨⟨400, 300⟩, 500, "#aabbcc", false, ⟨50, 0⟩⟩).position.x + 500 > 800 ∧
    (Ball.tick 800 600 ⟨⟨400, 300⟩, 500, "#aabbcc", false, ⟨50, 0⟩⟩).velocity.x = 50 ∧
    ¬ (Ball.tick 800 600 ⟨⟨400, 300⟩, 500, "#aabbcc", false, ⟨50, 0⟩⟩).velocity.x < 0 := by
  norm_num [Ball.tick, Ball.dispPos]

/-- C2 (amended): if, after the tick's displacement, EXACTLY ONE of the two
    x-axis boundary conditions (`x - r < 0`, `x + r > boundsWidth`) holds,
    the velocity.x carried into the next tick is the negation of this tick's
    velocity.x (opposite sign whenever it is nonzero); symmetrically for the
    y axis against boundsHeight; and the axes are independent, so a ball in
    a corner (one condition per axis) flips both components in one tick. -/
theorem bounce_negates_on_single_boundary (maxw maxh : ℚ) (b : Ball) :
    (((b.dispPos.x + b.radius > maxw ∧ ¬ (b.dispPos.x - b.radius < 0)) ∨
      (b.dispPos.x - b.radius < 0 ∧ ¬ (b.dispPos.x + b.radius > maxw))) →
        (Ball.tick maxw maxh b).velocity.x = - b.velocity.x) ∧
    (((b.dispPos.y + b.radius > maxh ∧ ¬ (b.dispPos.y - b.radius < 0)) ∨
      (b.dispPos.y - b.radius < 0 ∧ ¬ (b.dispPos.y + b.radius > maxh))) →
        (Ball.tick maxw maxh b).velocity.y = - b.velocity.y) := by
  constructor
  · rintro (⟨h1, h2⟩ | ⟨h1, h2⟩) <;> simp [Ball.tick, h1, h2]
  · rintro (⟨h1, h2⟩ | ⟨h1, h2⟩) <;> simp [Ball.tick, h1, h2]

/-- C2 witness: a radius-10 ball displaced into the bottom-right corner
    trips exactly one condition on each axis and has both velocity
    components negated in the same tick. -/
theorem bounce_negates_on_single_boundary_witness :
    (Ball.tick 800 600 ⟨⟨790, 590⟩, 10, "#aabbcc", false, ⟨50, 50⟩⟩).velocity.x = -(50 : ℚ) ∧
    (Ball.tick 800 600 ⟨⟨790, 590⟩, 10, "#aabbcc", false, ⟨50, 50⟩⟩).velocity.y = -(50 : ℚ) :=
  ⟨(bounce_negates_on_single_boundary 800 600 ⟨⟨790, 590⟩, 10, "#aabbcc", false, ⟨50, 50⟩⟩).1
      (Or.inl (by norm_num [Ball.dispPos])),
   (bounce_negates_on_single_boundary 800 600 ⟨⟨790, 590⟩, 10, "#aabbcc", false, ⟨50, 50⟩⟩).2
      (Or.inl (by norm_num [Ball.dispPos]))⟩

/-- C10: when both opposite boundary conditions on one axis hold in the same
    tick (possible when the diameter exceeds the world size, or after
    tunneling), that axis's velocity component is negated twice, ending the
    tick exactly equal to its pre-tick value — no net reflection
    (symmetrically for each axis). -/
theorem double_boundary_cancels (maxw maxh : ℚ) (b : Ball) :
    ((b.dispPos.x + b.radius > maxw ∧ b.dispPos.x - b.radius < 0) →
      (Ball.tick maxw maxh b).velocity.x = b.velocity.x) ∧
    ((b.dispPos.y + b.radius > maxh ∧ b.dispPos.y - b.radius < 0) →
      (Ball.tick maxw maxh b).velocity.y = b.velocity.y) := by
  constructor
  · rintro ⟨h1, h2⟩
    simp [Ball.tick, h1, h2]
  · rintro ⟨h1, h2⟩
    simp [Ball.tick, h1, h2]

/-- C10 witness: a radius-500 ball in the 800x600 world trips both
    conditions on both axes; its velocity is unchanged after the tick. -/
theorem double_boundary_cancels_witness :
    (Ball.tick 800 600 ⟨⟨400, 300⟩, 500, "#aabbcc", false, ⟨50, 100⟩⟩).velocity.x = 50 ∧
    (Ball.tick 800 600 ⟨⟨400, 300⟩, 500, "#aabbcc", false, ⟨50, 100⟩⟩).velocity.y = 100 :=
  ⟨(double_boundary_cancels 800 600 ⟨⟨400, 300⟩, 500, "#aabbcc", false, ⟨50, 100⟩⟩).1
      (by norm_num [Ball.dispPos]),
   (double_boundary_cancels 800 600 ⟨⟨400, 300⟩, 500, "#aabbcc", false, ⟨50, 100⟩⟩).2
      (by norm_num [Ball.dispPos])⟩

/-- C7: over any run of ticks in which no boundary condition fires the
    velocity vector is exactly unchanged (hence so is its Euclidean
    magnitude `abs(complex(x, y))`), and a single tick — bounce or not —
    always preserves the magnitude, since the boundary checks only flip
    component signs. -/
theorem speed_conserved (maxw maxh : ℚ) (b : Ball) (n : ℕ)
    (h : ∀ k, k < n → Ball.noBounce maxw maxh (Ball.tickN maxw maxh k b)) :
    (Ball.tickN maxw maxh n b).velocity = b.velocity ∧
    Complex.abs ⟨((Ball.tickN maxw maxh n b).velocity.x : ℝ),
                 ((Ball.tickN maxw maxh n b).velocity.y : ℝ)⟩ =
      Complex.abs ⟨(b.velocity.x : ℝ), (b.velocity.y : ℝ)⟩ ∧
    ∀ c : Ball,
      Complex.abs ⟨((Ball.tick maxw maxh c).velocity.x : ℝ),
                   ((Ball.tick maxw maxh c).velocity.y : ℝ)⟩ =
        Complex.abs ⟨(c.velocity.x : ℝ), (c.velocity.y : ℝ)⟩ := by
  have hv := Ball.tickN_velocity_of_noBounce maxw maxh n b h
  refine ⟨hv, by rw [hv], ?_⟩
  intro c
  refine abs_eq_of_sq_sum_eq _ _ ?_
  obtain ⟨hx, hy⟩ := Ball.tick_velocity_sq maxw maxh c
  rw [hx, hy]

/-- C7 witness: the demo ball, far from every wall, keeps its exact velocity
    across two bounce-free ticks. -/
theorem speed_conserved_witness :
    (Ball.tickN 800 600 2 demoBall).velocity = demoBall.velocity :=
  (speed_conserved 800 600 demoBall 2 (by
    intro k hk
    interval_cases k <;>
      norm_num [Ball.noBounce, Ball.tickN, Ball.tick, Ball.dispPos, demoBall])).1

/-- C3: Ball.contains holds iff the Euclidean distance from the ball's
    position to the point is strictly below the radius; a point at distance
    exactly the radius is not contained; and concretely, for a ball at
    (150, 150) with radius 20, the point (150, 150) is a hit while
    (171, 150) is a miss. -/
theorem contains_iff_distance_lt_radius :
    (∀ (b : Ball) (pt : Vector2d),
      b.contains pt ↔
        Real.sqrt (((b.position.x : ℝ) - (pt.x : ℝ)) ^ 2 +
            ((b.position.y : ℝ) - (pt.y : ℝ)) ^ 2) < (b.radius : ℝ)) ∧
    (∀ (b : Ball) (pt : Vector2d),
      Real.sqrt (((b.position.x : ℝ) - (pt.x : ℝ)) ^ 2 +
          ((b.position.y : ℝ) - (pt.y : ℝ)) ^ 2) = (b.radius : ℝ) →
        ¬ b.contains pt) ∧
    Ball.contains ⟨⟨150, 150⟩, 20, "#aabbcc", false, ⟨0, 0⟩⟩ ⟨150, 150⟩ ∧
    ¬ Ball.contains ⟨⟨150, 150⟩, 20, "#aabbcc", false, ⟨0, 0⟩⟩ ⟨171, 150⟩ := by
  have habs : ∀ (b : Ball) (pt : Vector2d),
      b.contains pt ↔
        Real.sqrt (((b.position.x : ℝ) - (pt.x : ℝ)) ^ 2 +
            ((b.position.y : ℝ) - (pt.y : ℝ)) ^ 2) < (b.radius : ℝ) := by
    intro b pt
    unfold Ball.contains
    rw [Complex.abs_apply, Complex.normSq_mk, gt_iff_lt]
    have hrw : ((b.position.x - pt.x : ℚ) : ℝ) * ((b.position.x - pt.x : ℚ) : ℝ) +
        ((b.position.y - pt.y : ℚ) : ℝ) * ((b.position.y - pt.y : ℚ) : ℝ) =
        ((b.position.x : ℝ) - (pt.x : ℝ)) ^ 2 + ((b.position.y : ℝ) - (pt.y : ℝ)) ^ 2 := by
      push_cast
      ring
    rw [hrw]
  refine ⟨habs, ?_, ?_, ?_⟩
  · intro b pt heq
    rw [habs, heq]
    exact lt_irrefl _
  · rw [Ball.contains_iff_sq]
    norm_num
  · rw [Ball.contains_iff_sq]
    norm_num

/-- C3 witness: a point at distance exactly 20 from the centre of a
    radius-20 ball is not contained. -/
theorem contains_iff_distance_lt_radius_witness :
    ¬ Ball.contains ⟨⟨150, 150⟩, 20, "#aabbcc", false, ⟨0, 0⟩⟩ ⟨170, 150⟩ :=
  contains_iff_distance_lt_radius.2.1 ⟨⟨150, 150⟩, 20, "#aabbcc", false, ⟨0, 0⟩⟩ ⟨170, 150⟩
    (by
      push_cast
      rw [show ((150 : ℝ) - 170) ^ 2 + ((150 : ℝ) - 150) ^ 2 = 20 ^ 2 by norm_num]
      exact Real.sqrt_sq (by norm_num))

/-- C4: FrameStats.render_debug does NOT guard the FPS division — whenever
    the measured duration `tick_stamp - last_tick_stamp` is zero it raises
    ZeroDivisionError instead of producing a sentinel value; with any
    nonzero duration it returns the two formatted integers. -/
theorem frame_stats_zero_duration_raises :
    (∀ t : ℚ, FrameStats.renderDebug t t =
      Except.error "ZeroDivisionError: float division by zero") ∧
    (∀ t l : ℚ, t - l ≠ 0 →
      FrameStats.renderDebug t l =
        Except.ok (truncInt (1000 * (t - l)), truncInt (1 / (t - l)))) := by
  constructor
  · intro t
    simp [FrameStats.renderDebug]
  · intro t l h
    simp [FrameStats.renderDebug, h]

/-- C4 witness: with duration 1 the overlay values are computed normally. -/
theorem frame_stats_zero_duration_raises_witness :
    FrameStats.renderDebug 2 1 =
      Except.ok (truncInt (1000 * (2 - 1)), truncInt (1 / (2 - 1))) :=
  frame_stats_zero_duration_raises.2 2 1 (by norm_num)

/-- C5: Ball.render_debug does NOT special-case zero velocity — for every
    ball whose velocity has magnitude zero the unguarded normalization
    `1 / abs(self.velocity)` raises ZeroDivisionError instead of skipping
    the debug vector draw. -/
theorem render_debug_zero_velocity_raises (b : Ball)
    (h : Complex.abs ⟨(b.velocity.x : ℝ), (b.velocity.y : ℝ)⟩ = 0) :
    Ball.renderDebug b = Except.error "ZeroDivisionError: float division by zero" := by
  rw [velAbs_eq_zero_iff] at h
  simp [Ball.renderDebug, h]

/-- C5 witness: a concrete motionless ball makes render_debug raise. -/
theorem render_debug_zero_velocity_raises_witness :
    Ball.renderDebug ⟨⟨100, 100⟩, 15, "#123456", false, ⟨0, 0⟩⟩ =
      Except.error "ZeroDivisionError: float division by zero" :=
  render_debug_zero_velocity_raises ⟨⟨100, 100⟩, 15, "#123456", false, ⟨0, 0⟩⟩
    ((velAbs_eq_zero_iff 0 0).mpr ⟨rfl, rfl⟩)

/-- C6: vector addition (copying `+` and in-place `+=`) errs with the
    type-mismatch message exactly when the right operand is not a Vector2d;
    on a Vector2d operand it yields the componentwise sum; and on the error
    path of `+=` the left operand is returned unmutated, since the raise
    happens before any field assignment. -/
theorem vector_add_rejects_nonvector (a : Vector2d) (o : PyValue) :
    ((∃ e : String, Vector2d.add a o = Except.error e) ↔
      ∀ v : Vector2d, o ≠ PyValue.vec v) ∧
    (∀ v : Vector2d, o = PyValue.vec v →
      Vector2d.add a o = Except.ok ⟨a.x + v.x, a.y + v.y⟩) ∧
    ((Vector2d.iadd a o).2.isSome = true ↔ ∀ v : Vector2d, o ≠ PyValue.vec v) ∧
    (∀ v : Vector2d, o = PyValue.vec v →
      Vector2d.iadd a o = (⟨a.x + v.x, a.y + v.y⟩, none)) ∧
    ((Vector2d.iadd a o).2.isSome = true → (Vector2d.iadd a o).1 = a) := by
  cases o with
  | vec v0 =>
    refine ⟨?_, ?_, ?_, ?_, ?_⟩
    · exact iff_of_false (by simp [Vector2d.add]) (fun h => (h v0) rfl)
    · intro v hv
      cases hv
      rfl
    · exact iff_of_false (by simp [Vector2d.iadd]) (fun h => (h v0) rfl)
    · intro v hv
      cases hv
      rfl
    · intro h
      simp [Vector2d.iadd] at h
  | nonVector s =>
    refine ⟨?_, ?_, ?_, ?_, ?_⟩
    · exact iff_of_true ⟨"Only vector can be added to vector", rfl⟩
        (fun v h => PyValue.noConfusion h)
    · intro v hv
      exact PyValue.noConfusion hv
    · exact iff_of_true rfl (fun v h => PyValue.noConfusion h)
    · intro v hv
      exact PyValue.noConfusion hv
    · intro _
      rfl

/-- C6 witness: adding the vector (3, 4) succeeds componentwise, and an
    attempted in-place addition of a non-vector leaves the target intact. -/
theorem vector_add_rejects_nonvector_witness :
    Vector2d.add ⟨1, 2⟩ (PyValue.vec ⟨3, 4⟩) = Except.ok ⟨1 + 3, 2 + 4⟩ ∧
    (Vector2d.iadd ⟨1, 2⟩ (PyValue.nonVector "the integer five")).1 = ⟨1, 2⟩ :=
  ⟨(vector_add_rejects_nonvector ⟨1, 2⟩ (PyValue.vec ⟨3, 4⟩)).2.1 ⟨3, 4⟩ rfl,
   (vector_add_rejects_nonvector ⟨1, 2⟩ (PyValue.nonVector "the integer five")).2.2.2.2 rfl⟩

/-- C8: one click relates the object table pointwise to its post-click
    state: every ball whose hit test contains the point has clicked()
    invoked on it (its entry becomes a clicked version with fresh random
    position and velocity), every other entry is untouched — all matches
    react, not just the first, and the table keeps its length. -/
theorem clicked_invokes_all_containing (point : Vector2d)
    (rand : ℕ → Vector2d × Vector2d) (g : Game) :
    List.Forall₂ (ClickOutcome point) g.objects ((g.clicked point rand).objects) ∧
    ((g.clicked point rand).objects).length = g.objects.length := by
  have h := clickedList_outcome point rand 0 g.objects
  exact ⟨h, (List.Forall₂.length_eq h).symm⟩

/-- C8 witness: clicking (150, 150) on the world with two overlapping balls
    invokes clicked() on BOTH of them — each entry of the resulting table is
    the corresponding ball with the oracle's new position and velocity. -/
theorem clicked_invokes_all_containing_witness :
    List.Forall₂ (ClickOutcome ⟨150, 150⟩) overlapGame.objects
      ((overlapGame.clicked ⟨150, 150⟩ clickRand).objects) ∧
    (overlapGame.clicked ⟨150, 150⟩ clickRand).objects =
      [Obj.ball (ballA.clicked ⟨200, 300⟩ ⟨10, 10⟩),
       Obj.ball (ballB.clicked ⟨200, 300⟩ ⟨10, 10⟩)] := by
  refine ⟨(clicked_invokes_all_containing ⟨150, 150⟩ clickRand overlapGame).1, ?_⟩
  have hA : ballA.containsB ⟨150, 150⟩ = true := by
    rw [Ball.containsB, decide_eq_true_iff]
    norm_num [ballA]
  have hB : ballB.containsB ⟨150, 150⟩ = true := by
    rw [Ball.containsB, decide_eq_true_iff]
    norm_num [ballB]
  simp [Game.clicked, Game.clickedList, overlapGame, clickRand, hA, hB]

/-- C9: while the world is paused a tick leaves the object table — hence
    every ball's position — unchanged (the per-object tick phase is
    skipped); togglePause then unpauses it, after which a tick advances
    every object, and any ball with nonzero velocity changes position. -/
theorem pause_freezes_positions (g : Game) (now : ℚ)
    (hp : g.pause = true) (hd : ∀ o ∈ g.objects, o.destroyed = false) :
    ((g.tick now).objects = g.objects) ∧
    (g.togglePause.pause = false) ∧
    ((g.togglePause.tick now).objects = g.objects.map (Obj.tick g.maxw g.maxh)) ∧
    (∀ b : Ball, b.velocity ≠ ⟨0, 0⟩ →
      (Ball.tick g.maxw g.maxh b).position ≠ b.position) := by
  have hq : g.togglePause.pause = false := by
    simp [Game.togglePause, hp]
  refine ⟨?_, hq, ?_, ?_⟩
  · rw [Game.tick_objects, if_pos hp]
    exact List.filter_eq_self.mpr (fun o ho => by simp [hd o ho])
  · rw [Game.tick_objects, hq]
    simp only [Bool.false_eq_true, if_false]
    refine List.filter_eq_self.mpr ?_
    intro a ha
    obtain ⟨o, ho, rfl⟩ := List.mem_map.mp ha
    simp [Obj.tick_destroyed, hd o ho]
  · intro b hb heq
    have hx : b.position.x + b.velocity.x * (0.02 : ℚ) = b.position.x :=
      congrArg Vector2d.x heq
    have hy : b.position.y + b.velocity.y * (0.02 : ℚ) = b.position.y :=
      congrArg Vector2d.y heq
    have hvx : b.velocity.x = 0 := by
      have := add_right_eq_self.mp hx
      rcases mul_eq_zero.mp this with h | h
      · exact h
      · norm_num at h
    have hvy : b.velocity.y = 0 := by
      have := add_right_eq_self.mp hy
      rcases mul_eq_zero.mp this with h | h
      · exact h
      · norm_num at h
    refine hb ?_
    have hev : b.velocity = ⟨b.velocity.x, b.velocity.y⟩ := rfl
    rw [hev, hvx, hvy]

/-- C9 witness: the concrete paused world's table is untouched by a tick. -/
theorem pause_freezes_positions_witness :
    (pausedGame.tick 1).objects = pausedGame.objects :=
  (pause_freezes_positions pausedGame 1 rfl (by decide)).1

end BallSim
